import Mathlib

/-
Verification of the flora audio-reactive particle visualization.

The model below is a shallow embedding of `src/src/ThreeScene.js` (the main
scene component) together with the two unnamed variants `src/unnamed/part_000`
and `src/unnamed/part_001` where a claim refers to them.  Shader floating-point
arithmetic and JavaScript number arithmetic are embedded as exact rational
arithmetic (ℚ); byte-valued audio bins are `Fin 256`; the external
`THREE.MathUtils.degToRad` conversion is treated as an abstract function
parameter where it occurs.
-/

namespace Flora

/-! Shader model (vertexShader of ThreeScene.js, lines 94-110). -/

/-- Luminance of a sampled texel: `(color.r + color.g + color.b) / 3.0`. -/
def luminance (r g b : ℚ) : ℚ := (r + g + b) / 3

/-- The fixed luminance threshold `const luminanceThreshold = 0.1`. -/
def luminanceThreshold : ℚ := 1 / 10

/-- Z displacement of a vertex:
`luminance > 0.1 ? luminance * (100.0 + bassStrength * 200.0) : 0.0`. -/
def displacement (lum bass : ℚ) : ℚ :=
  if luminanceThreshold < lum then lum * (100 + bass * 200) else 0

/-- Point size: `gl_PointSize = size * (luminance * 6.0 + 3.0)`. -/
def pointSize (size lum : ℚ) : ℚ := size * (lum * 6 + 3)

/-- The outputs of the vertex stage that depend on the sampled color:
the point size and the z offset added to the rest position. -/
structure VertexOut where
  glPointSize : ℚ
  zOffset : ℚ
  deriving DecidableEq

/-- The vertex main function: samples color `(r,g,b)` at the vertex UV,
computes luminance, then displacement and point size, exactly as in the
`vertexShader` string of ThreeScene.js. -/
def vertexMain (size bass r g b : ℚ) : VertexOut :=
  { glPointSize := pointSize size (luminance r g b)
    zOffset := displacement (luminance r g b) bass }

/-! Audio analysis model (`detectBass`, ThreeScene.js lines 148-157).
`analyser.fftSize = 512`, so `analyser.frequencyBinCount = 256`; the
`Uint8Array(256)` snapshot is embedded as a function from bin index to a
byte `Fin 256`.  The loop sums the lowest `bassRange = 3` bins. -/

/-- One call of `detectBass` on a frequency-bin snapshot: sums bins 0..2 and
returns `bassTotal / bassRange / 155`. -/
def detectBass (frequencyData : ℕ → Fin 256) : ℚ :=
  let bassRange : ℕ := 3
  let bassTotal : ℕ :=
    (List.range bassRange).foldl (fun t i => t + (frequencyData i).val) 0
  (bassTotal : ℚ) / (bassRange : ℚ) / 155

/-- The snapshot beginning `[90, 120, 60, ...]` used in the spec's example. -/
def exampleBins : ℕ → Fin 256 := fun i =>
  if i = 0 then 90 else if i = 1 then 120 else if i = 2 then 60 else 0

/-! Particle geometry model (ThreeScene.js lines 61-86).  The source allocates
`new Float32Array(particleCount * 3)` and `new Float32Array(particleCount * 2)`
(zero-initialized) and fills them in a nested loop (outer `i`, inner `j`, both
over `0..479`), writing one position triple and one UV pair per grid cell at
consecutive slot `index = i * 480 + j`.  Each buffer is embedded as the list
of its consecutive triples (resp. pairs): the cells written by the loop, in
loop order, followed by the untouched all-zero tail of the allocation.  In the
main file `particleCount = 480 * 480`, so the tail is empty; in the variant
`src/unnamed/part_001` (line 12) `particleCount = 1480 * 1480` while its loop
still writes only `480 * 480` cells. -/

/-- `const videoWidth = 480`. -/
def videoWidth : ℚ := 480

/-- `const videoHeight = 480`. -/
def videoHeight : ℚ := 480

/-- `const width = 240 * (videoWidth / videoHeight)`. -/
def width : ℚ := 240 * (videoWidth / videoHeight)

/-- `const height = 240`. -/
def height : ℚ := 240

/-- The position triple written for grid cell `(i, j)`:
`((i - 240) * (width / 240), (j - 240) * (height / 240), 0)`. -/
def posCell (i j : ℕ) : ℚ × ℚ × ℚ :=
  (((i : ℚ) - 240) * (width / 240), ((j : ℚ) - 240) * (height / 240), 0)

/-- The UV pair written for grid cell `(i, j)`: `(i / 480, j / 480)`. -/
def uvCell (i j : ℕ) : ℚ × ℚ := ((i : ℚ) / 480, (j : ℚ) / 480)

/-- The grid cells in loop order: outer loop over `i`, inner loop over `j`. -/
def cellList : List (ℕ × ℕ) :=
  (List.range 480).flatMap (fun i => (List.range 480).map (fun j => (i, j)))

/-- `const particleCount = 480 * 480` of the main file. -/
def particleCount : ℕ := 480 * 480

/-- `const particleCount = 1480 * 1480` of the variant `src/unnamed/part_001`. -/
def particleCountVariant : ℕ := 1480 * 1480

/-- The position buffer of a build with the given allocation count, grouped
into consecutive triples: the loop-written cells in order, then the
zero-initialized remainder of the allocation. -/
def positionTriples (count : ℕ) : List (ℚ × ℚ × ℚ) :=
  cellList.map (fun c => posCell c.1 c.2) ++
    List.replicate (count - 480 * 480) (0, 0, 0)

/-- The UV buffer of a build with the given allocation count, grouped into
consecutive pairs. -/
def uvPairs (count : ℕ) : List (ℚ × ℚ) :=
  cellList.map (fun c => uvCell c.1 c.2) ++
    List.replicate (count - 480 * 480) (0, 0)

/-! Render-loop model (`animate`, ThreeScene.js lines 159-174). -/

/-- The observable steps of one tick of `animate`. -/
inductive TickStep where
  | reschedule
  | sampleBass
  | writeUniform
  | cameraUpdate (device : Bool)
  | render
  deriving DecidableEq

/-- One tick of `animate` as the ordered list of its steps:
`requestAnimationFrame(animate)` is invoked first; then, if `particles` is
set, the tick calls `detectBass()`, writes `bassStrength` into the shader
uniform, updates device-orientation controls if present (orbit controls
otherwise), and finally calls `composer.render()`. -/
def animateTick (particlesPresent deviceControlsPresent : Bool) : List TickStep :=
  [TickStep.reschedule] ++
    (if particlesPresent then
      [TickStep.sampleBass, TickStep.writeUniform,
       TickStep.cameraUpdate deviceControlsPresent, TickStep.render]
    else [])

/-! Camera-controller model (`requestOrientationPermission` and
`enableDeviceOrientationControls`, ThreeScene.js lines 177-208, plus the
OrbitControls wiring).  The platform capabilities are the presence of
`DeviceOrientationEvent.requestPermission` and of `window.DeviceOrientationEvent`;
the controller state records whether `deviceControls` has been created,
whether `controls.enabled` still holds, and how many `alert` notifications
have been shown. -/

/-- Outcome of `await DeviceOrientationEvent.requestPermission()`. -/
inductive PermResponse where
  | granted
  | denied
  | errorThrown
  deriving DecidableEq

/-- Platform capabilities probed by the source. -/
structure Platform where
  canRequestPermission : Bool
  hasOrientationEvent : Bool

/-- Controller state: `deviceControls` created, `controls.enabled`, and the
number of `alert` notifications shown so far. -/
structure ControlState where
  deviceControlsOn : Bool
  orbitEnabled : Bool
  alerts : ℕ
  deriving DecidableEq

/-- State after scene initialization: no device controls, orbit controls
enabled, no notifications. -/
def initControlState : ControlState :=
  { deviceControlsOn := false, orbitEnabled := true, alerts := 0 }

/-- `enableDeviceOrientationControls`: if `window.DeviceOrientationEvent` is
available, create the device controls and set `controls.enabled = false`;
otherwise alert that orientation is unsupported. -/
def enableDeviceOrientationControls (p : Platform) (s : ControlState) : ControlState :=
  if p.hasOrientationEvent then
    { s with deviceControlsOn := true, orbitEnabled := false }
  else
    { s with alerts := s.alerts + 1 }

/-- `requestOrientationPermission`: on iOS-style platforms await the explicit
grant — enable device controls when granted, alert when denied, log and keep
state on a thrown error; on other platforms enable device controls directly. -/
def requestOrientationPermission (p : Platform) (resp : PermResponse)
    (s : ControlState) : ControlState :=
  if p.canRequestPermission then
    match resp with
    | PermResponse.granted => enableDeviceOrientationControls p s
    | PermResponse.denied => { s with alerts := s.alerts + 1 }
    | PermResponse.errorThrown => s
  else
    enableDeviceOrientationControls p s

/-- An input event of the running session: a manual-orbit drag, or the
resolution of a permission request. -/
inductive SessionEvent where
  | drag (d : ℚ)
  | permission (resp : PermResponse)

/-- Session state: the controller state plus the camera's orbit angle. -/
structure SessionState where
  ctl : ControlState
  cameraAngle : ℚ

/-- One session step.  A drag is processed by OrbitControls only while
`controls.enabled` holds (the library's handlers return immediately when
disabled); `applyDrag` is the library's orbit update, kept abstract. -/
def sessionStep (p : Platform) (applyDrag : ℚ → ℚ → ℚ)
    (s : SessionState) (e : SessionEvent) : SessionState :=
  match e with
  | SessionEvent.drag d =>
      if s.ctl.orbitEnabled then
        { s with cameraAngle := applyDrag s.cameraAngle d }
      else s
  | SessionEvent.permission r =>
      { s with ctl := requestOrientationPermission p r s.ctl }

/-! Teardown model (the `useEffect` cleanup, ThreeScene.js lines 211-218).
The cleanup removes the resize listener, disposes `deviceControls` and
`controls` when their variables are set (the variables are never cleared, so
the guards only test creation, not prior disposal), removes the renderer DOM
element from the container, closes the audio context, and removes the button
listener.  `container.removeChild` throws a NotFoundError when the element is
no longer a child, aborting the remaining steps. -/

/-- DOM exception thrown during cleanup. -/
inductive DomErr where
  | notFoundErr
  deriving DecidableEq

/-- Resource state observed by the cleanup closure, with call counters for
the release operations. -/
structure TeardownState where
  resizeListenerOn : Bool
  clickListenerOn : Bool
  deviceControlsSet : Bool
  deviceDisposeCalls : ℕ
  orbitDisposeCalls : ℕ
  rendererAttached : Bool
  audioCloseCalls : ℕ
  deriving DecidableEq

/-- State after scene initialization without the gyroscope having been
enabled: both listeners installed, orbit controls created, device controls
absent, renderer element attached, audio context open. -/
def initTeardown : TeardownState :=
  { resizeListenerOn := true, clickListenerOn := true, deviceControlsSet := false,
    deviceDisposeCalls := 0, orbitDisposeCalls := 0, rendererAttached := true,
    audioCloseCalls := 0 }

/-- The cleanup closure.  Returns the state reached and the error thrown, if
any; steps after a throw do not execute. -/
def cleanup (s : TeardownState) : TeardownState × Option DomErr :=
  let s1 := { s with resizeListenerOn := false }
  let s2 := if s1.deviceControlsSet then
      { s1 with deviceDisposeCalls := s1.deviceDisposeCalls + 1 }
    else s1
  let s3 := { s2 with orbitDisposeCalls := s2.orbitDisposeCalls + 1 }
  if s3.rendererAttached then
    let s4 := { s3 with rendererAttached := false }
    let s5 := { s4 with audioCloseCalls := s4.audioCloseCalls + 1 }
    ({ s5 with clickListenerOn := false }, none)
  else
    (s3, some DomErr.notFoundErr)

/-! Orientation-event handler of the variant `src/unnamed/part_001`
(`handleOrientation`, lines 174-183).  The external conversion
`THREE.MathUtils.degToRad` is an abstract parameter. -/

/-- A camera rotation as set by `camera.rotation.set(x, y, z)`. -/
structure Euler3 where
  x : ℚ
  y : ℚ
  z : ℚ
  deriving DecidableEq

/-- A `deviceorientation` event: each angle may be null. -/
structure OrientationEvent where
  alpha : Option ℚ
  beta : Option ℚ
  gamma : Option ℚ

/-- `handleOrientation` of `src/unnamed/part_001`: when all three angles are
non-null, set the camera rotation to
`(degToRad(beta - 90), degToRad(gamma), degToRad(alpha))`; otherwise leave the
rotation unchanged. -/
def handleOrientation (degToRad : ℚ → ℚ) (ev : OrientationEvent)
    (rot : Euler3) : Euler3 :=
  match ev.alpha, ev.beta, ev.gamma with
  | some a, some b, some g =>
      { x := degToRad (b - 90), y := degToRad g, z := degToRad a }
  | _, _, _ => rot

/-! Helper lemmas. -/

theorem detectBass_eq (d : ℕ → Fin 256) :
    detectBass d = (((d 0).val + (d 1).val + (d 2).val : ℕ) : ℚ) / 3 / 155 := by
  have h : (List.range 3).foldl (fun t i => t + (d i).val) 0
      = (d 0).val + (d 1).val + (d 2).val := by
    show List.foldl _ 0 [0, 1, 2] = _
    simp [List.foldl]
  simp only [detectBass, h]
  norm_num

/-- Claim C2: the z displacement is exactly 0 whenever luminance is at most
0.1; above that threshold it equals `luminance * (100 + bassStrength * 200)`,
is strictly increasing in luminance (for non-negative bass strength) and
strictly increasing in bass strength. -/
theorem displacement_threshold_monotone :
    (∀ lum bass : ℚ, lum ≤ 1 / 10 → displacement lum bass = 0) ∧
    (∀ lum bass : ℚ, 1 / 10 < lum →
      displacement lum bass = lum * (100 + bass * 200)) ∧
    (∀ bass l1 l2 : ℚ, 0 ≤ bass → 1 / 10 < l1 → l1 < l2 →
      displacement l1 bass < displacement l2 bass) ∧
    (∀ lum b1 b2 : ℚ, 1 / 10 < lum → b1 < b2 →
      displacement lum b1 < displacement lum b2) := by
  refine ⟨?_, ?_, ?_, ?_⟩
  · intro lum bass h
    simp only [displacement, luminanceThreshold, if_neg (not_lt.mpr h)]
  · intro lum bass h
    simp only [displacement, luminanceThreshold, if_pos h]
  · intro bass l1 l2 hb h1 h12
    have h2 : (1 : ℚ) / 10 < l2 := lt_trans h1 h12
    simp only [displacement, luminanceThreshold, if_pos h1, if_pos h2]
    nlinarith
  · intro lum b1 b2 h hb
    simp only [displacement, luminanceThreshold, if_pos h]
    nlinarith

/-- Concrete instantiation of `displacement_threshold_monotone`. -/
theorem displacement_threshold_monotone_witness :
    displacement (1 / 20) 5 = 0 ∧
    displacement (1 / 5) 1 = (1 / 5 : ℚ) * (100 + 1 * 200) ∧
    displacement (1 / 5) 1 < displacement (2 / 5) 1 ∧
    displacement (1 / 5) 1 < displacement (1 / 5) 2 :=
  ⟨displacement_threshold_monotone.1 (1 / 20) 5 (by norm_num),
   displacement_threshold_monotone.2.1 (1 / 5) 1 (by norm_num),
   displacement_threshold_monotone.2.2.1 1 (1 / 5) (2 / 5) (by norm_num)
     (by norm_num) (by norm_num),
   displacement_threshold_monotone.2.2.2 (1 / 5) 1 2 (by norm_num) (by norm_num)⟩

/-- Claim C4: `detectBass` is a pure function of the snapshot: it returns
`(bin0 + bin1 + bin2) / 3 / 155`; on the snapshot `[90, 120, 60, ...]` this is
`(90 + 120 + 60) / 3 / 155 = 90 / 155`, and pointwise-equal snapshots yield
equal results. -/
theorem detectBass_deterministic_formula :
    (∀ d : ℕ → Fin 256,
      detectBass d = (((d 0).val + (d 1).val + (d 2).val : ℕ) : ℚ) / 3 / 155) ∧
    detectBass exampleBins = ((90 + 120 + 60 : ℚ)) / 3 / 155 ∧
    detectBass exampleBins = (90 : ℚ) / 155 ∧
    (∀ d1 d2 : ℕ → Fin 256, (∀ i, d1 i = d2 i) →
      detectBass d1 = detectBass d2) := by
  have e0 : (exampleBins 0).val = 90 := rfl
  have e1 : (exampleBins 1).val = 120 := rfl
  have e2 : (exampleBins 2).val = 60 := rfl
  refine ⟨detectBass_eq, ?_, ?_, ?_⟩
  · rw [detectBass_eq, e0, e1, e2]
    norm_num
  · rw [detectBass_eq, e0, e1, e2]
    norm_num
  · intro d1 d2 h
    rw [detectBass_eq, detectBass_eq, h 0, h 1, h 2]

/-- Concrete instantiation of `detectBass_deterministic_formula`. -/
theorem detectBass_deterministic_formula_witness :
    detectBass exampleBins
      = (((exampleBins 0).val + (exampleBins 1).val + (exampleBins 2).val : ℕ) : ℚ)
        / 3 / 155 ∧
    detectBass exampleBins = detectBass exampleBins :=
  ⟨detectBass_deterministic_formula.1 exampleBins,
   detectBass_deterministic_formula.2.2.2 exampleBins exampleBins (fun _ => rfl)⟩

/-- Claim C5: the computed point size equals `baseSize * (luminance * 6 + 3)`;
it is `3 * baseSize` at luminance 0, `9 * baseSize` at luminance 1, strictly
increasing in luminance (for positive base size), and independent of the bass
strength. -/
theorem pointSize_affine_in_luminance :
    (∀ size bass r g b : ℚ,
      (vertexMain size bass r g b).glPointSize = size * (luminance r g b * 6 + 3)) ∧
    (∀ size bass : ℚ, (vertexMain size bass 0 0 0).glPointSize = 3 * size) ∧
    (∀ size bass : ℚ, (vertexMain size bass 1 1 1).glPointSize = 9 * size) ∧
    (∀ size l1 l2 : ℚ, 0 < size → l1 < l2 →
      pointSize size l1 < pointSize size l2) ∧
    (∀ size b1 b2 r g b : ℚ,
      (vertexMain size b1 r g b).glPointSize = (vertexMain size b2 r g b).glPointSize) := by
  refine ⟨?_, ?_, ?_, ?_, ?_⟩
  · intro size bass r g b
    rfl
  · intro size bass
    simp only [vertexMain, pointSize, luminance]
    ring_nf
  · intro size bass
    simp only [vertexMain, pointSize, luminance]
    norm_num
    ring
  · intro size l1 l2 hs h
    simp only [pointSize]
    nlinarith
  · intro size b1 b2 r g b
    rfl

/-- Concrete instantiation of `pointSize_affine_in_luminance`. -/
theorem pointSize_affine_in_luminance_witness :
    (vertexMain (1 / 2) 7 (1 / 4) (1 / 2) (3 / 4)).glPointSize
      = (1 / 2 : ℚ) * (luminance (1 / 4) (1 / 2) (3 / 4) * 6 + 3) ∧
    (vertexMain (1 / 2) 7 0 0 0).glPointSize = 3 * (1 / 2 : ℚ) ∧
    (vertexMain (1 / 2) 7 1 1 1).glPointSize = 9 * (1 / 2 : ℚ) ∧
    pointSize (1 / 2) (1 / 4) < pointSize (1 / 2) (3 / 4) ∧
    (vertexMain (1 / 2) 0 (1 / 4) (1 / 2) (3 / 4)).glPointSize
      = (vertexMain (1 / 2) 9 (1 / 4) (1 / 2) (3 / 4)).glPointSize :=
  ⟨pointSize_affine_in_luminance.1 (1 / 2) 7 (1 / 4) (1 / 2) (3 / 4),
   pointSize_affine_in_luminance.2.1 (1 / 2) 7,
   pointSize_affine_in_luminance.2.2.1 (1 / 2) 7,
   pointSize_affine_in_luminance.2.2.2.1 (1 / 2) (1 / 4) (3 / 4) (by norm_num)
     (by norm_num),
   pointSize_affine_in_luminance.2.2.2.2 (1 / 2) 0 9 (1 / 4) (1 / 2) (3 / 4)⟩

/-- Claim C9: for every byte-valued snapshot the bass value lies in
`[0, 255/155]`, and it is not clamped to `[0, 1]`: with the three lowest bins
at 255 the output is `255/155 > 1`. -/
theorem detectBass_range_unclamped :
    (∀ d : ℕ → Fin 256, 0 ≤ detectBass d ∧ detectBass d ≤ (255 : ℚ) / 155) ∧
    detectBass (fun _ => (255 : Fin 256)) = (255 : ℚ) / 155 ∧
    (1 : ℚ) < detectBass (fun _ => (255 : Fin 256)) := by
  refine ⟨?_, ?_, ?_⟩
  · intro d
    rw [detectBass_eq]
    constructor
    · positivity
    · have h0 : (d 0).val ≤ 255 := Fin.is_le _
      have h1 : (d 1).val ≤ 255 := Fin.is_le _
      have h2 : (d 2).val ≤ 255 := Fin.is_le _
      have hsum : (((d 0).val + (d 1).val + (d 2).val : ℕ) : ℚ) ≤ 765 := by
        exact_mod_cast Nat.add_le_add (Nat.add_le_add h0 h1) h2
      rw [div_div]
      rw [div_le_div_iff₀ (by norm_num) (by norm_num)]
      linarith
  · rw [detectBass_eq]
    have e : ((255 : Fin 256)).val = 255 := rfl
    rw [e]
    norm_num
  · rw [detectBass_eq]
    have e : ((255 : Fin 256)).val = 255 := rfl
    rw [e]
    norm_num

theorem range_flatMap_eq (n m : ℕ) (hm : 0 < m) :
    (List.range n).flatMap (fun i => (List.range m).map (fun j => (i, j)))
      = (List.range (n * m)).map (fun k => (k / m, k % m)) := by
  induction n with
  | zero => simp
  | succ n ih =>
    rw [List.range_succ, List.flatMap_append, ih, Nat.succ_mul, List.range_add,
      List.map_append, List.map_map]
    congr 1
    simp only [List.flatMap_cons, List.flatMap_nil, List.append_nil]
    apply List.map_congr_left
    intro j hj
    rw [List.mem_range] at hj
    have hd : (n * m + j) / m = n := by
      rw [Nat.add_comm, Nat.mul_comm, Nat.add_mul_div_left j n hm,
        Nat.div_eq_of_lt hj, Nat.zero_add]
    have hr : (n * m + j) % m = j := by
      rw [Nat.add_comm, Nat.mul_comm, Nat.add_mul_mod_self_left,
        Nat.mod_eq_of_lt hj]
    simp [Function.comp, hd, hr]

theorem cellList_eq :
    cellList = (List.range (480 * 480)).map (fun k => (k / 480, k % 480)) :=
  range_flatMap_eq 480 480 (by norm_num)

theorem positionTriples_main_eq :
    positionTriples particleCount
      = (List.range (480 * 480)).map (fun k => posCell (k / 480) (k % 480)) := by
  simp [positionTriples, particleCount, cellList_eq, List.map_map, Function.comp]

theorem uvPairs_main_eq :
    uvPairs particleCount
      = (List.range (480 * 480)).map (fun k => uvCell (k / 480) (k % 480)) := by
  simp [uvPairs, particleCount, cellList_eq, List.map_map, Function.comp]

theorem cellList_length : cellList.length = 480 * 480 := by
  rw [cellList_eq, List.length_map, List.length_range]

theorem sum_map_range (f : ℕ → ℚ) (n : ℕ) :
    ((List.range n).map f).sum = ∑ i ∈ Finset.range n, f i := by
  induction n with
  | zero => simp
  | succ n ih => simp [List.range_succ, Finset.sum_range_succ, ih]

theorem sum_flatMap {α : Type} (l : List α) (f : α → List ℚ) :
    (l.flatMap f).sum = (l.map (fun a => (f a).sum)).sum := by
  induction l with
  | nil => simp
  | cons a l ih => simp [List.flatMap_cons, List.sum_append, ih]

theorem sum_range_cast (n : ℕ) :
    (∑ i ∈ Finset.range n, (i : ℚ)) = (n * (n - 1) / 2 : ℕ) := by
  rw [← Nat.cast_sum]
  rw [Finset.sum_range_id]

theorem width_div : width / 240 = 1 := by
  norm_num [width, videoWidth, videoHeight]

theorem height_div : height / 240 = 1 := by
  norm_num [height]

theorem positionTriples_flatMap :
    positionTriples particleCount
      = (List.range 480).flatMap
          (fun i => (List.range 480).map (fun j => posCell i j)) := by
  have h0 : particleCount - 480 * 480 = 0 := by norm_num [particleCount]
  rw [positionTriples, h0, List.replicate_zero, List.append_nil, cellList,
    List.map_flatMap]
  apply List.flatMap_congr
  intro i _
  rw [List.map_map]
  rfl

theorem sum_x :
    ((positionTriples particleCount).map (fun p => p.1)).sum = -115200 := by
  rw [positionTriples_flatMap, List.map_flatMap, sum_flatMap]
  have hin : ∀ i : ℕ,
      (((List.range 480).map (fun j => posCell i j)).map (fun p => p.1)).sum
        = 480 * (((i : ℚ) - 240)) := by
    intro i
    rw [List.map_map]
    have hc : ((fun p : ℚ × ℚ × ℚ => p.1) ∘ fun j : ℕ => posCell i j)
        = fun _ : ℕ => (((i : ℚ) - 240) * (width / 240)) := rfl
    rw [hc, List.map_const', List.sum_replicate, width_div]
    simp [nsmul_eq_mul]
  simp only [hin]
  rw [sum_map_range]
  rw [← Finset.mul_sum]
  rw [Finset.sum_sub_distrib, sum_range_cast]
  simp only [Finset.sum_const, Finset.card_range, nsmul_eq_mul]
  norm_num

theorem sum_y :
    ((positionTriples particleCount).map (fun p => p.2.1)).sum = -115200 := by
  rw [positionTriples_flatMap, List.map_flatMap, sum_flatMap]
  have hin : ∀ i : ℕ,
      (((List.range 480).map (fun j => posCell i j)).map (fun p => p.2.1)).sum
        = -240 := by
    intro i
    rw [List.map_map]
    have hc : ((fun p : ℚ × ℚ × ℚ => p.2.1) ∘ fun j : ℕ => posCell i j)
        = fun j : ℕ => (((j : ℚ) - 240) * (height / 240)) := rfl
    rw [hc, sum_map_range]
    simp only [height_div, mul_one]
    rw [Finset.sum_sub_distrib, sum_range_cast]
    simp only [Finset.sum_const, Finset.card_range, nsmul_eq_mul]
    norm_num
  simp only [hin]
  rw [List.map_const', List.sum_replicate]
  simp [nsmul_eq_mul]
  norm_num

/-- Claim C1, checked against both builds: in the main file the build yields
exactly 480² position triples and 480² UV pairs, and triple `k` and pair `k`
both come from row-major cell `(k / 480, k % 480)`; in the `part_001` variant
the allocated buffers hold 1480² triples and pairs, which is not 480². -/
theorem particle_build_buffer_sizes :
    positionTriples particleCount
      = (List.range (480 * 480)).map (fun k => posCell (k / 480) (k % 480)) ∧
    uvPairs particleCount
      = (List.range (480 * 480)).map (fun k => uvCell (k / 480) (k % 480)) ∧
    (positionTriples particleCount).length = 480 * 480 ∧
    (uvPairs particleCount).length = 480 * 480 ∧
    (positionTriples particleCountVariant).length = 1480 * 1480 ∧
    (uvPairs particleCountVariant).length = 1480 * 1480 ∧
    (1480 * 1480 : ℕ) ≠ 480 * 480 := by
  refine ⟨positionTriples_main_eq, uvPairs_main_eq, ?_, ?_, ?_, ?_, by norm_num⟩
  · rw [positionTriples_main_eq, List.length_map, List.length_range]
  · rw [uvPairs_main_eq, List.length_map, List.length_range]
  · rw [positionTriples, List.length_append, List.length_map, cellList_length,
      List.length_replicate]
    norm_num [particleCountVariant]
  · rw [uvPairs, List.length_append, List.length_map, cellList_length,
      List.length_replicate]
    norm_num [particleCountVariant]

/-- Claim C8 counterexample: the mean X coordinate over all built rest
positions is −1/2, not 0, so the position set is not centered at the origin
on the X axis. -/
theorem grid_mean_offset_cex :
    ((positionTriples particleCount).map (fun p => p.1)).sum
        / ((positionTriples particleCount).length : ℚ) = -(1 / 2) ∧
    ¬ (((positionTriples particleCount).map (fun p => p.1)).sum
        / ((positionTriples particleCount).length : ℚ) = 0) := by
  have hl : (positionTriples particleCount).length = 480 * 480 := by
    rw [positionTriples_main_eq, List.length_map, List.length_range]
  rw [sum_x, hl]
  norm_num

/-- Claim C8 amended: every rest position has Z coordinate exactly 0, but the
grid is offset half a cell on X and Y: the mean X and the mean Y coordinate
are each −1/2, not 0. -/
theorem grid_flat_and_mean :
    ((positionTriples particleCount).map (fun p => p.2.2))
      = List.replicate (480 * 480) (0 : ℚ) ∧
    ((positionTriples particleCount).map (fun p => p.1)).sum
        / ((positionTriples particleCount).length : ℚ) = -(1 / 2) ∧
    ((positionTriples particleCount).map (fun p => p.2.1)).sum
        / ((positionTriples particleCount).length : ℚ) = -(1 / 2) := by
  have hl : (positionTriples particleCount).length = 480 * 480 := by
    rw [positionTriples_main_eq, List.length_map, List.length_range]
  refine ⟨?_, ?_, ?_⟩
  · rw [positionTriples_main_eq, List.map_map]
    have h : ((fun p : ℚ × ℚ × ℚ => p.2.2) ∘ fun k : ℕ => posCell (k / 480) (k % 480))
        = fun _ : ℕ => (0 : ℚ) := by
      funext k
      rfl
    rw [h, List.map_const', List.length_range]
  · rw [sum_x, hl]
    norm_num
  · rw [sum_y, hl]
    norm_num

/-- Claim C6 counterexample: a tick of `animate` does not reschedule last; it
calls `requestAnimationFrame` as its first step and `composer.render()` as its
last step, so the trace differs from the claimed order. -/
theorem animate_reschedules_first_cex :
    (animateTick true false).getLast? = some TickStep.render ∧
    (animateTick true false).head? = some TickStep.reschedule ∧
    animateTick true false ≠
      [TickStep.sampleBass, TickStep.writeUniform, TickStep.cameraUpdate false,
       TickStep.render, TickStep.reschedule] := by
  refine ⟨rfl, rfl, ?_⟩
  decide

/-- Claim C6 amended: every tick of `animate` (with the particle system
present) performs, in order: reschedule via `requestAnimationFrame` first,
then sample the analyser, write the bass uniform, advance the camera
controller (device or orbit controls), and invoke the composite render as the
last step. -/
theorem animate_tick_order :
    ∀ device : Bool, animateTick true device =
      [TickStep.reschedule, TickStep.sampleBass, TickStep.writeUniform,
       TickStep.cameraUpdate device, TickStep.render] := by
  decide

theorem orbit_stays_disabled (p : Platform) (r : PermResponse)
    (s : ControlState) (h : s.orbitEnabled = false) :
    (requestOrientationPermission p r s).orbitEnabled = false := by
  rcases hc : p.canRequestPermission with _ | _ <;>
    rcases ho : p.hasOrientationEvent with _ | _ <;>
    rcases r with _ | _ | _ <;>
    simp_all [requestOrientationPermission, enableDeviceOrientationControls]

theorem sessionStep_drag_disabled (p : Platform) (applyDrag : ℚ → ℚ → ℚ)
    (s : SessionState) (h : s.ctl.orbitEnabled = false) (d : ℚ) :
    sessionStep p applyDrag s (SessionEvent.drag d) = s := by
  simp [sessionStep, h]

theorem foldl_drags_disabled (p : Platform) (applyDrag : ℚ → ℚ → ℚ)
    (s : SessionState) (h : s.ctl.orbitEnabled = false) (ds : List ℚ) :
    (ds.map SessionEvent.drag).foldl (sessionStep p applyDrag) s = s := by
  induction ds with
  | nil => rfl
  | cons d ds ih =>
    rw [List.map_cons, List.foldl_cons, sessionStep_drag_disabled p applyDrag s h d]
    exact ih

/-- Claim C3: starting from the Manual state, a denied permission response
leaves the controller Manual with exactly one user notification; a granted
response — or a platform that requires no explicit grant — creates the device
orientation controls and disables orbit controls, after which drag input
never changes the camera for the rest of the session. -/
theorem camera_permission_machine (applyDrag : ℚ → ℚ → ℚ) :
    (∀ p : Platform, p.canRequestPermission = true →
      (requestOrientationPermission p PermResponse.denied initControlState).deviceControlsOn
          = false ∧
      (requestOrientationPermission p PermResponse.denied initControlState).orbitEnabled
          = true ∧
      (requestOrientationPermission p PermResponse.denied initControlState).alerts = 1) ∧
    (∀ p : Platform, p.hasOrientationEvent = true → ∀ resp : PermResponse,
      (resp = PermResponse.granted ∨ p.canRequestPermission = false) →
      (requestOrientationPermission p resp initControlState).deviceControlsOn = true ∧
      (requestOrientationPermission p resp initControlState).orbitEnabled = false) ∧
    (∀ (p : Platform) (s : SessionState), s.ctl.orbitEnabled = false →
      (∀ e : SessionEvent, (sessionStep p applyDrag s e).ctl.orbitEnabled = false) ∧
      (∀ ds : List ℚ,
        ((ds.map SessionEvent.drag).foldl (sessionStep p applyDrag) s).cameraAngle
          = s.cameraAngle)) ∧
    (∀ p : Platform, p.hasOrientationEvent = true → ∀ c0 : ℚ, ∀ ds : List ℚ,
      ((ds.map SessionEvent.drag).foldl (sessionStep p applyDrag)
          { ctl := requestOrientationPermission p PermResponse.granted initControlState,
            cameraAngle := c0 }).cameraAngle = c0) := by
  have henable : ∀ p : Platform, p.hasOrientationEvent = true → ∀ resp : PermResponse,
      (resp = PermResponse.granted ∨ p.canRequestPermission = false) →
      (requestOrientationPermission p resp initControlState).deviceControlsOn = true ∧
      (requestOrientationPermission p resp initControlState).orbitEnabled = false := by
    intro p hapi resp hor
    rcases hor with hg | hnc
    · subst hg
      rcases hc : p.canRequestPermission with _ | _ <;>
        simp [requestOrientationPermission, enableDeviceOrientationControls, hc, hapi]
    · simp [requestOrientationPermission, enableDeviceOrientationControls, hnc, hapi]
  refine ⟨?_, henable, ?_, ?_⟩
  · intro p hp
    simp [requestOrientationPermission, hp, initControlState]
  · intro p s h
    constructor
    · intro e
      rcases e with d | r
      · rw [sessionStep_drag_disabled p applyDrag s h d]
        exact h
      · exact orbit_stays_disabled p r s.ctl h
    · intro ds
      rw [foldl_drags_disabled p applyDrag s h ds]
  · intro p hapi c0 ds
    have hdis : (requestOrientationPermission p PermResponse.granted
        initControlState).orbitEnabled = false :=
      (henable p hapi PermResponse.granted (Or.inl rfl)).2
    rw [foldl_drags_disabled p applyDrag _ hdis ds]

/-- Concrete instantiation of `camera_permission_machine`. -/
theorem camera_permission_machine_witness :
    ((requestOrientationPermission ⟨true, true⟩ PermResponse.denied
        initControlState).deviceControlsOn = false ∧
      (requestOrientationPermission ⟨true, true⟩ PermResponse.denied
        initControlState).orbitEnabled = true ∧
      (requestOrientationPermission ⟨true, true⟩ PermResponse.denied
        initControlState).alerts = 1) ∧
    ((requestOrientationPermission ⟨true, true⟩ PermResponse.granted
        initControlState).deviceControlsOn = true ∧
      (requestOrientationPermission ⟨true, true⟩ PermResponse.granted
        initControlState).orbitEnabled = false) ∧
    (sessionStep ⟨true, true⟩ (fun c d => c + d)
        { ctl := { deviceControlsOn := true, orbitEnabled := false, alerts := 0 },
          cameraAngle := 7 } (SessionEvent.drag 5)).ctl.orbitEnabled = false ∧
    (([3, 5].map SessionEvent.drag).foldl
        (sessionStep ⟨true, true⟩ (fun c d => c + d))
        { ctl := requestOrientationPermission ⟨true, true⟩ PermResponse.granted
            initControlState,
          cameraAngle := 7 }).cameraAngle = 7 :=
  ⟨(camera_permission_machine (fun c d => c + d)).1 ⟨true, true⟩ rfl,
   (camera_permission_machine (fun c d => c + d)).2.1 ⟨true, true⟩ rfl
     PermResponse.granted (Or.inl rfl),
   (((camera_permission_machine (fun c d => c + d)).2.2.1 ⟨true, true⟩
       { ctl := { deviceControlsOn := true, orbitEnabled := false, alerts := 0 },
         cameraAngle := 7 } rfl).1 (SessionEvent.drag 5)),
   ((camera_permission_machine (fun c d => c + d)).2.2.2 ⟨true, true⟩ rfl 7 [3, 5])⟩

/-- Claim C7 counterexample: running the cleanup twice from the
post-initialization state is not idempotent: the second run disposes the
orbit controls a second time and then throws a NotFoundError when removing
the already-removed renderer DOM element. -/
theorem cleanup_not_idempotent_cex :
    (cleanup (cleanup initTeardown).1).2 = some DomErr.notFoundErr ∧
    (cleanup (cleanup initTeardown).1).1.orbitDisposeCalls = 2 := by
  refine ⟨rfl, rfl⟩

/-- Claim C7 amended: a single cleanup run releases each resource exactly
once (one orbit dispose, one audio close, DOM element detached, listeners
removed), but a second run re-disposes the orbit controls and throws when
removing the renderer element, so teardown is not idempotent. -/
theorem cleanup_single_release :
    cleanup initTeardown =
      ({ resizeListenerOn := false, clickListenerOn := false,
         deviceControlsSet := false, deviceDisposeCalls := 0,
         orbitDisposeCalls := 1, rendererAttached := false,
         audioCloseCalls := 1 }, none) ∧
    (cleanup (cleanup initTeardown).1).1.orbitDisposeCalls = 2 ∧
    (cleanup (cleanup initTeardown).1).2 ≠ none := by
  refine ⟨rfl, rfl, ?_⟩
  decide

/-- Claim C10: in the `part_001` orientation handler, any event with a null
alpha, beta or gamma leaves the camera rotation unchanged; when all three are
non-null the rotation is set to
`(degToRad(beta - 90), degToRad(gamma), degToRad(alpha))`. -/
theorem handleOrientation_null_guard :
    (∀ (degToRad : ℚ → ℚ) (ev : OrientationEvent) (rot : Euler3),
      (ev.alpha = none ∨ ev.beta = none ∨ ev.gamma = none) →
      handleOrientation degToRad ev rot = rot) ∧
    (∀ (degToRad : ℚ → ℚ) (a b g : ℚ) (rot : Euler3),
      handleOrientation degToRad
          { alpha := some a, beta := some b, gamma := some g } rot =
        { x := degToRad (b - 90), y := degToRad g, z := degToRad a }) := by
  constructor
  · intro f ev rot h
    rcases ev with ⟨a, b, g⟩
    rcases a with _ | a <;> rcases b with _ | b <;> rcases g with _ | g <;>
      simp_all [handleOrientation]
  · intro f a b g rot
    rfl

/-- Concrete instantiation of `handleOrientation_null_guard`. -/
theorem handleOrientation_null_guard_witness :
    handleOrientation id
        { alpha := none, beta := some 5, gamma := some 6 }
        { x := 1, y := 2, z := 3 } = { x := 1, y := 2, z := 3 } ∧
    handleOrientation id
        { alpha := some 10, beta := some 100, gamma := some 20 }
        { x := 1, y := 2, z := 3 } = { x := 10, y := 20, z := 10 } := by
  constructor
  · exact handleOrientation_null_guard.1 id
      { alpha := none, beta := some 5, gamma := some 6 }
      { x := 1, y := 2, z := 3 } (Or.inl rfl)
  · rw [handleOrientation_null_guard.2 id 10 100 20 { x := 1, y := 2, z := 3 }]
    norm_num

end Flora
